import Mathlib

/-!
Shallow embedding of the landing-gear shock-absorber scripts
(functions_SA_analysis.py and functions_SA_sizing.py) over exact rational
arithmetic, together with theorems settling the frozen claims about the
iterative reaction-factor solver, the stroke breakdown and the
oleo-pneumatic strut sizing.
-/

/-- Inches to meters with the factor 0.0254, as in
`r_max = r_max_in * 0.0254` (functions_SA_analysis.py, lines 56-57). -/
def inchToM (x : ℚ) : ℚ := x * (254 / 10000)

/-- Pounds-force to newtons with the factor 4.44822, as in
`load_rating = rated_load_lbs * 4.44822` (functions_SA_analysis.py, line 76). -/
def lbfToN (x : ℚ) : ℚ := x * (444822 / 100000)

/-- Meters to inches as used in `oleo_pneumatic_sizing`:
`d_piston_in = d_piston * 39.3701` (functions_SA_sizing.py, line 119). -/
def mToInSizing (x : ℚ) : ℚ := x * (393701 / 10000)

/-- Inches back to meters as used in `oleo_pneumatic_sizing`:
`selected_B = selected_B_in / 39.3701` (functions_SA_sizing.py, line 127). -/
def inToMSizing (x : ℚ) : ℚ := x / (393701 / 10000)

/-- Absolute value on rationals, matching the Python builtin `abs`. -/
def ratAbs (x : ℚ) : ℚ := if x < 0 then -x else x

/-- The inputs of `lambda_xt_iter` (functions_SA_analysis.py, lines 52-54):
speed `V`, assumed shock-absorber stroke `x_a`, mass `m`, outer and static
tyre radii in inches, load rating, tyre count, plus the keyword parameters
`eta_a`, `eta_t`, `g` and `tol`. -/
structure IterP where
  V : ℚ
  x_a : ℚ
  m : ℚ
  r_max_in : ℚ
  r_min_in : ℚ
  load_rating : ℚ
  n_tyres : ℚ
  eta_a : ℚ
  eta_t : ℚ
  g : ℚ
  tol : ℚ

/-- Build an `IterP` with the Python keyword defaults
`eta_a=0.80, eta_t=0.47, g=9.81, tol=1e-6`. -/
def mkIterP (V x_a m r_max_in r_min_in load_rating n_tyres : ℚ) : IterP :=
  ⟨V, x_a, m, r_max_in, r_min_in, load_rating, n_tyres,
    4 / 5, 47 / 100, 981 / 100, 1 / 1000000⟩

/-- Replace only the speed input, keeping every other input fixed. -/
def withV (p : IterP) (v : ℚ) : IterP :=
  ⟨v, p.x_a, p.m, p.r_max_in, p.r_min_in, p.load_rating, p.n_tyres,
    p.eta_a, p.eta_t, p.g, p.tol⟩

/-- The lambda update of the loop body:
`lambda_val = V**2 / (2 * g * (eta_a * x_a + eta_t * x_t))`
(functions_SA_analysis.py, line 60). -/
def lamOf (p : IterP) (xt : ℚ) : ℚ :=
  p.V ^ 2 / (2 * p.g * (p.eta_a * p.x_a + p.eta_t * xt))

/-- The tyre-stroke update of the loop body:
`x_t_new = (0.9 * lambda_val * g * m * (r_max - r_min)) / (load_rating * n_tyres)`
with the radii already converted from inches to meters
(functions_SA_analysis.py, lines 56-57 and 61). -/
def xtNext (p : IterP) (lam : ℚ) : ℚ :=
  (9 / 10) * lam * p.g * p.m * (inchToM p.r_max_in - inchToM p.r_min_in) /
    (p.load_rating * p.n_tyres)

/-- The `for` loop of `lambda_xt_iter` (functions_SA_analysis.py, lines 59-66)
with the remaining iteration count as fuel.  On each pass the loop computes
`lambda` from the current tyre stroke, computes the updated stroke, and on
`|x_t_new - x_t| < tol` breaks and returns `(lambda_val, x_t)` with `x_t`
still holding the pre-update value; exhausting the fuel models the
`RuntimeError` raised by the `for ... else` clause. -/
def iterLoop (p : IterP) : Nat → ℚ → Option (ℚ × ℚ)
  | 0, _ => none
  | n + 1, xt =>
    if ratAbs (xtNext p (lamOf p xt) - xt) < p.tol then some (lamOf p xt, xt)
    else iterLoop p n (xtNext p (lamOf p xt))

/-- `lambda_xt_iter` (functions_SA_analysis.py, lines 52-67): the loop starts
from the initial value `x_t = 0.1` and runs for at most `max_iter = 100`
iterations. -/
def lambdaXtIter (p : IterP) : Option (ℚ × ℚ) := iterLoop p 100 (1 / 10)

/-- Unfolding lemma: a loop step whose convergence test passes returns the
lambda computed from the current stroke together with that same stroke. -/
theorem iterLoop_succ_stop (p : IterP) (n : Nat) (xt : ℚ)
    (h : ratAbs (xtNext p (lamOf p xt) - xt) < p.tol) :
    iterLoop p (n + 1) xt = some (lamOf p xt, xt) := by
  simp only [iterLoop]
  rw [if_pos h]

/-- Unfolding lemma: a loop step whose convergence test fails continues with
the updated stroke and one unit of fuel less. -/
theorem iterLoop_succ_go (p : IterP) (n : Nat) (xt y : ℚ)
    (hy : xtNext p (lamOf p xt) = y)
    (h : ¬ ratAbs (y - xt) < p.tol) :
    iterLoop p (n + 1) xt = iterLoop p n y := by
  simp only [iterLoop]
  rw [hy, if_neg h]

/-- Any pair returned by the loop consists of a lambda computed from exactly
the returned tyre stroke, and that stroke passes the convergence test against
its own update. -/
theorem iterLoop_spec (p : IterP) :
    ∀ (n : Nat) (xt0 lam xt : ℚ), iterLoop p n xt0 = some (lam, xt) →
      lam = lamOf p xt ∧ ratAbs (xtNext p lam - xt) < p.tol := by
  intro n
  induction n with
  | zero => intro xt0 lam xt h; simp [iterLoop] at h
  | succ k ih =>
    intro xt0 lam xt h
    simp only [iterLoop] at h
    by_cases hc : ratAbs (xtNext p (lamOf p xt0) - xt0) < p.tol
    · rw [if_pos hc, Option.some.injEq, Prod.mk.injEq] at h
      obtain ⟨h1, h2⟩ := h
      subst h1; subst h2
      exact ⟨rfl, hc⟩
    · rw [if_neg hc] at h
      exact ih _ _ _ h

/-- Concrete converging input for the solver: the first convergence test
passes because the update maps the initial stroke 0.1 to exactly 0.1. -/
def pExact : IterP := mkIterP 1 (1 / 2) 1 (627 / 127) 1 (150 / 149) 1

/-- Concrete converging input for the solver whose first update moves the
tyre stroke from 0.1 to 0.1 + 1e-7, within tolerance but not equal to 0.1. -/
def pNear : IterP := mkIterP 1 (1 / 2) 1 (627 / 127) 1 (150000000 / 149000149) 1

/-- Evaluation of the solver at `pExact`: it converges at once. -/
theorem pExact_run : lambdaXtIter pExact = some (50000 / 438507, 1 / 10) := by
  have e1 : lamOf pExact (1 / 10) = 50000 / 438507 := by
    norm_num [lamOf, pExact, mkIterP]
  have hc : ratAbs (xtNext pExact (lamOf pExact (1 / 10)) - 1 / 10) < pExact.tol := by
    norm_num [ratAbs, xtNext, lamOf, inchToM, pExact, mkIterP]
  rw [lambdaXtIter, show (100 : ℕ) = 99 + 1 from rfl,
    iterLoop_succ_stop pExact 99 (1 / 10) hc, e1]

/-- Evaluation of the solver at `pNear`: it also converges at once, while the
first update is strictly within tolerance of 0.1 but different from it. -/
theorem pNear_run : lambdaXtIter pNear = some (50000 / 438507, 1 / 10) := by
  have e1 : lamOf pNear (1 / 10) = 50000 / 438507 := by
    norm_num [lamOf, pNear, mkIterP]
  have hc : ratAbs (xtNext pNear (lamOf pNear (1 / 10)) - 1 / 10) < pNear.tol := by
    norm_num [ratAbs, xtNext, lamOf, inchToM, pNear, mkIterP]
  rw [lambdaXtIter, show (100 : ℕ) = 99 + 1 from rfl,
    iterLoop_succ_stop pNear 99 (1 / 10) hc, e1]

/-- C2 (confirmed): whenever `lambda_xt_iter` returns, the returned pair
satisfies the energy equation exactly — the returned lambda was computed from
exactly the returned tyre stroke with the radii converted at 0.0254 m per
inch inside `xtNext` — while the returned stroke satisfies the tyre-stroke
update equation only to within the tolerance. -/
theorem c2_returned_pair_satisfies_energy_equation (p : IterP) (lam xt : ℚ)
    (h : lambdaXtIter p = some (lam, xt)) :
    lam = p.V ^ 2 / (2 * p.g * (p.eta_a * p.x_a + p.eta_t * xt)) ∧
      ratAbs (xtNext p lam - xt) < p.tol := by
  have hs := iterLoop_spec p 100 (1 / 10) lam xt h
  exact ⟨hs.1, hs.2⟩

/-- Witness for C2 at a concrete converging input. -/
theorem c2_witness :
    lambdaXtIter pExact = some (50000 / 438507, 1 / 10) ∧
      ((50000 : ℚ) / 438507 =
        pExact.V ^ 2 /
          (2 * pExact.g * (pExact.eta_a * pExact.x_a + pExact.eta_t * (1 / 10))) ∧
        ratAbs (xtNext pExact (50000 / 438507) - 1 / 10) < pExact.tol) :=
  ⟨pExact_run,
    c2_returned_pair_satisfies_energy_equation pExact (50000 / 438507) (1 / 10)
      pExact_run⟩

/-- C1 counterexample: at `pNear` the solver converges and returns the pair
`(50000/438507, 1/10)`, yet the freshly updated stroke computed from that
lambda is `1000001/10000000`, which differs from the returned stroke — the
solver returns the pre-update value, not `tyre_stroke_next`. -/
theorem c1_counterexample :
    lambdaXtIter pNear = some (50000 / 438507, 1 / 10) ∧
      xtNext pNear (50000 / 438507) = 1000001 / 10000000 ∧
      ((1000001 : ℚ) / 10000000) ≠ 1 / 10 :=
  ⟨pNear_run,
    by norm_num [xtNext, inchToM, pNear, mkIterP],
    by norm_num⟩

/-- C1 (amended): when the convergence test
`|tyre_stroke_next - tyre_stroke| < tolerance` passes, the loop stops and
returns `(lambda, tyre_stroke)` where `tyre_stroke` is the pre-update value
from which `lambda` was computed, not the freshly updated
`tyre_stroke_next`. -/
theorem c1_amended_returns_pre_update_stroke (p : IterP) (n : Nat) (xt : ℚ)
    (h : ratAbs (xtNext p (lamOf p xt) - xt) < p.tol) :
    iterLoop p (n + 1) xt = some (lamOf p xt, xt) := by
  simp only [iterLoop]
  rw [if_pos h]

/-- Witness for the amended C1 at a concrete input passing the test. -/
theorem c1_amended_witness :
    iterLoop pExact (0 + 1) (1 / 10) = some (lamOf pExact (1 / 10), 1 / 10) :=
  c1_amended_returns_pre_update_stroke pExact 0 (1 / 10)
    (by norm_num [ratAbs, xtNext, lamOf, inchToM, pExact, mkIterP])

/-- Positivity is preserved along the loop: with every physical input
positive and the outer radius above the static radius, each stroke iterate
stays positive, hence so does any returned pair. -/
theorem iterLoop_pos (p : IterP)
    (hV : 0 < p.V) (hxa : 0 < p.x_a)
    (hm : 0 < p.m) (hr : p.r_min_in < p.r_max_in)
    (hL : 0 < p.load_rating) (hn : 0 < p.n_tyres)
    (hea : 0 < p.eta_a) (het : 0 < p.eta_t) (hg : 0 < p.g) :
    ∀ (n : Nat) (xt0 lam xt : ℚ), 0 < xt0 → iterLoop p n xt0 = some (lam, xt) →
      0 < lam ∧ 0 < xt := by
  have hd : 0 < inchToM p.r_max_in - inchToM p.r_min_in := by
    unfold inchToM; linarith
  intro n
  induction n with
  | zero => intro xt0 lam xt _ h; simp [iterLoop] at h
  | succ k ih =>
    intro xt0 lam xt hx h
    have hlam0 : 0 < lamOf p xt0 := by
      unfold lamOf
      have hden : 0 < 2 * p.g * (p.eta_a * p.x_a + p.eta_t * xt0) :=
        mul_pos (mul_pos two_pos hg) (add_pos (mul_pos hea hxa) (mul_pos het hx))
      exact div_pos (pow_pos hV 2) hden
    have hxtn : 0 < xtNext p (lamOf p xt0) := by
      unfold xtNext
      exact div_pos
        (mul_pos (mul_pos (mul_pos (mul_pos (by norm_num) hlam0) hg) hm) hd)
        (mul_pos hL hn)
    simp only [iterLoop] at h
    by_cases hc : ratAbs (xtNext p (lamOf p xt0) - xt0) < p.tol
    · rw [if_pos hc, Option.some.injEq, Prod.mk.injEq] at h
      obtain ⟨h1, h2⟩ := h
      subst h1; subst h2
      exact ⟨hlam0, hx⟩
    · rw [if_neg hc] at h
      exact ih _ _ _ hxtn h

/-- C4 (amended): for positive inputs with outer radius above static radius,
whenever the iteration does converge the returned values satisfy
`lambda > 0` and `tyre_stroke >= 0`; convergence itself is not guaranteed
for all such inputs (see the counterexample). -/
theorem c4_amended_positive_on_convergence (p : IterP) (lam xt : ℚ)
    (hV : 0 < p.V) (hxa : 0 < p.x_a) (hm : 0 < p.m)
    (hr : p.r_min_in < p.r_max_in) (hL : 0 < p.load_rating) (hn : 0 < p.n_tyres)
    (hea : 0 < p.eta_a) (het : 0 < p.eta_t) (hg : 0 < p.g)
    (h : lambdaXtIter p = some (lam, xt)) :
    0 < lam ∧ 0 ≤ xt := by
  have hp := iterLoop_pos p hV hxa hm hr hL hn hea het hg 100 (1 / 10) lam xt
    (by norm_num) h
  exact ⟨hp.1, le_of_lt hp.2⟩

/-- Witness for the amended C4 at a concrete converging input. -/
theorem c4_amended_witness : 0 < (50000 : ℚ) / 438507 ∧ (0 : ℚ) ≤ 1 / 10 :=
  c4_amended_positive_on_convergence pExact (50000 / 438507) (1 / 10)
    (by norm_num [pExact, mkIterP]) (by norm_num [pExact, mkIterP])
    (by norm_num [pExact, mkIterP]) (by norm_num [pExact, mkIterP])
    (by norm_num [pExact, mkIterP]) (by norm_num [pExact, mkIterP])
    (by norm_num [pExact, mkIterP]) (by norm_num [pExact, mkIterP])
    (by norm_num [pExact, mkIterP]) pExact_run

/-- A valid positive input (speed 10, stroke 0.5, mass 10000, radii 627/127
and 1 inches, load rating 1, one tyre) on which the fixed-point map is so
weakly contracting that 100 iterations at tolerance 1e-6 do not converge. -/
def pDiverge : IterP := mkIterP 10 (1 / 2) 10000 (627 / 127) 1 1 1

/-- C4 counterexample: at the valid positive input `pDiverge` the solver
exhausts its 100 iterations and fails, so the non-convergence error branch
is reachable. -/
theorem c4_counterexample :
    lambdaXtIter pDiverge = none ∧
      0 < pDiverge.V ∧ 0 < pDiverge.x_a ∧ 0 < pDiverge.m ∧
      pDiverge.r_min_in < pDiverge.r_max_in ∧
      0 < pDiverge.load_rating ∧ 0 < pDiverge.n_tyres :=
  ⟨by with_unfolding_all decide,
    by norm_num [pDiverge, mkIterP], by norm_num [pDiverge, mkIterP],
    by norm_num [pDiverge, mkIterP], by norm_num [pDiverge, mkIterP],
    by norm_num [pDiverge, mkIterP], by norm_num [pDiverge, mkIterP]⟩

/-- An exact simultaneous solution of the two update equations of the loop
body (functions_SA_analysis.py, lines 60-61): a fixed point of the
iteration. -/
def IsFixedPoint (p : IterP) (lam xt : ℚ) : Prop :=
  lam = lamOf p xt ∧ xt = xtNext p lam

/-- C9 (amended): the exact fixed point of the coupled equations is strictly
monotone in the speed: with every other input fixed, positive and the outer
radius above the static radius, a positive fixed-point lambda at a larger
speed is strictly larger.  The lambda actually returned by the
tolerance-terminated loop is not strictly monotone in the speed (see the
counterexample). -/
theorem c9_amended_fixed_point_lambda_monotone (p : IterP)
    (v1 v2 lam1 xt1 lam2 xt2 : ℚ)
    (h1 : IsFixedPoint (withV p v1) lam1 xt1)
    (h2 : IsFixedPoint (withV p v2) lam2 xt2)
    (hl1 : 0 < lam1) (hl2 : 0 < lam2)
    (hv1 : 0 < v1) (hv : v1 < v2)
    (hxa : 0 < p.x_a) (hg : 0 < p.g) (hea : 0 < p.eta_a) (het : 0 < p.eta_t)
    (hm : 0 < p.m) (hr : p.r_min_in < p.r_max_in)
    (hL : 0 < p.load_rating) (hn : 0 < p.n_tyres) :
    lam1 < lam2 := by
  obtain ⟨e1, f1⟩ := h1
  obtain ⟨e2, f2⟩ := h2
  simp only [lamOf, withV] at e1 e2
  simp only [xtNext, withV] at f1 f2
  have hd : 0 < inchToM p.r_max_in - inchToM p.r_min_in := by
    unfold inchToM; linarith
  have hKpos : 0 < (9 / 10) * p.g * p.m *
      (inchToM p.r_max_in - inchToM p.r_min_in) / (p.load_rating * p.n_tyres) :=
    div_pos (mul_pos (mul_pos (mul_pos (by norm_num) hg) hm) hd) (mul_pos hL hn)
  have f1k : xt1 = (9 / 10) * p.g * p.m *
      (inchToM p.r_max_in - inchToM p.r_min_in) / (p.load_rating * p.n_tyres) *
      lam1 := by rw [f1]; ring
  have f2k : xt2 = (9 / 10) * p.g * p.m *
      (inchToM p.r_max_in - inchToM p.r_min_in) / (p.load_rating * p.n_tyres) *
      lam2 := by rw [f2]; ring
  have hxt1 : 0 < xt1 := f1k ▸ mul_pos hKpos hl1
  have hxt2 : 0 < xt2 := f2k ▸ mul_pos hKpos hl2
  have hD1 : 0 < 2 * p.g * (p.eta_a * p.x_a + p.eta_t * xt1) :=
    mul_pos (mul_pos two_pos hg) (add_pos (mul_pos hea hxa) (mul_pos het hxt1))
  have hD2 : 0 < 2 * p.g * (p.eta_a * p.x_a + p.eta_t * xt2) :=
    mul_pos (mul_pos two_pos hg) (add_pos (mul_pos hea hxa) (mul_pos het hxt2))
  rw [eq_div_iff hD1.ne'] at e1
  rw [eq_div_iff hD2.ne'] at e2
  by_contra hcon
  push_neg at hcon
  have hxt21 : xt2 ≤ xt1 := by
    have hsub : xt1 - xt2 = (9 / 10) * p.g * p.m *
        (inchToM p.r_max_in - inchToM p.r_min_in) / (p.load_rating * p.n_tyres) *
        (lam1 - lam2) := by rw [f1k, f2k]; ring
    nlinarith [mul_nonneg hKpos.le (sub_nonneg.mpr hcon)]
  have hsum : p.eta_a * p.x_a + p.eta_t * xt2 ≤ p.eta_a * p.x_a + p.eta_t * xt1 :=
    add_le_add_left (mul_le_mul_of_nonneg_left hxt21 het.le) (p.eta_a * p.x_a)
  have hD12 : 2 * p.g * (p.eta_a * p.x_a + p.eta_t * xt2) ≤
      2 * p.g * (p.eta_a * p.x_a + p.eta_t * xt1) :=
    mul_le_mul_of_nonneg_left hsum (mul_pos two_pos hg).le
  have hle : lam2 * (2 * p.g * (p.eta_a * p.x_a + p.eta_t * xt2)) ≤
      lam1 * (2 * p.g * (p.eta_a * p.x_a + p.eta_t * xt1)) :=
    mul_le_mul hcon hD12 hD2.le hl1.le
  have hvsq : v1 ^ 2 < v2 ^ 2 := by nlinarith
  rw [← e1, ← e2] at hvsq
  linarith

/-- Concrete inputs realizing two exact rational fixed points: lambda 1 at
speed 2 and lambda 2 at speed 3. -/
def p9w : IterP := mkIterP 2 (875 / 3924) 1 (627 / 127) 1 (407078703 / 25000000) 1

/-- Witness for the amended C9 at two concrete exact fixed points. -/
theorem c9_amended_witness :
    IsFixedPoint (withV p9w 2) 1 (2500 / 46107) ∧
      IsFixedPoint (withV p9w 3) 2 (5000 / 46107) ∧ (1 : ℚ) < 2 := by
  have h1 : IsFixedPoint (withV p9w 2) 1 (2500 / 46107) :=
    ⟨by norm_num [lamOf, withV, p9w, mkIterP],
      by norm_num [xtNext, inchToM, withV, p9w, mkIterP]⟩
  have h2 : IsFixedPoint (withV p9w 3) 2 (5000 / 46107) :=
    ⟨by norm_num [lamOf, withV, p9w, mkIterP],
      by norm_num [xtNext, inchToM, withV, p9w, mkIterP]⟩
  refine ⟨h1, h2, ?_⟩
  exact c9_amended_fixed_point_lambda_monotone p9w 2 3 1 (2500 / 46107) 2
    (5000 / 46107) h1 h2 (by norm_num) (by norm_num) (by norm_num) (by norm_num)
    (by norm_num [p9w, mkIterP]) (by norm_num [p9w, mkIterP])
    (by norm_num [p9w, mkIterP]) (by norm_num [p9w, mkIterP])
    (by norm_num [p9w, mkIterP]) (by norm_num [p9w, mkIterP])
    (by norm_num [p9w, mkIterP]) (by norm_num [p9w, mkIterP])

/-- Realistic fixed inputs (stroke 0.5 m, mass 76000 kg, tyre radii 24.75 and
20.5 inches, load rating 222411 N, four tyres) at which the returned lambda
is not monotone in the speed near a stopping-index boundary. -/
def p9cex : IterP := mkIterP (183 / 100) (1 / 2) 76000 (99 / 4) (41 / 2) 222411 4

/-- The smaller of the two speeds exhibiting the non-monotonicity. -/
def p9v1 : IterP := withV p9cex (1529751 / 500000)

/-- The larger of the two speeds exhibiting the non-monotonicity. -/
def p9v2 : IterP := withV p9cex (3059503 / 1000000)

theorem p9v1_run :
    lambdaXtIter p9v1 = some ((24361051890615365097359454153731342450307193026289954538000 : ℚ) / 22536760379232263729833637599050072272006049712343392691911, (412289854582600438808821314446197350843856755093381357 : ℚ) / 4684541159221468275645882111271147532943342100000000000) := by
  rw [lambdaXtIter,
    show (100 : ℕ) = 99 + 1 from rfl,
    iterLoop_succ_go p9v1 99 ((1 : ℚ) / 10) ((5646753288388413 : ℚ) / 64978900000000000)
      (by norm_num [xtNext, lamOf, inchToM, ratAbs, p9v1, withV, p9cex, mkIterP]) (by norm_num [xtNext, lamOf, inchToM, ratAbs, p9v1, withV, p9cex, mkIterP]),
    show (99 : ℕ) = 98 + 1 from rfl,
    iterLoop_succ_go p9v1 98 ((5646753288388413 : ℚ) / 64978900000000000) ((2524098719909620611 : ℚ) / 28645534045542554110)
      (by norm_num [xtNext, lamOf, inchToM, ratAbs, p9v1, withV, p9cex, mkIterP]) (by norm_num [xtNext, lamOf, inchToM, ratAbs, p9v1, withV, p9cex, mkIterP]),
    show (98 : ℕ) = 97 + 1 from rfl,
    iterLoop_succ_go p9v1 97 ((2524098719909620611 : ℚ) / 28645534045542554110) ((48526279070792897093937520124858229 : ℚ) / 551428390122815834672323700000000000)
      (by norm_num [xtNext, lamOf, inchToM, ratAbs, p9v1, withV, p9cex, mkIterP]) (by norm_num [xtNext, lamOf, inchToM, ratAbs, p9v1, withV, p9cex, mkIterP]),
    show (97 : ℕ) = 96 + 1 from rfl,
    iterLoop_succ_go p9v1 96 ((48526279070792897093937520124858229 : ℚ) / 551428390122815834672323700000000000) ((21420179375625354232152131545754919963 : ℚ) / 243378707212398995503080114458683367630)
      (by norm_num [xtNext, lamOf, inchToM, ratAbs, p9v1, withV, p9cex, mkIterP]) (by norm_num [xtNext, lamOf, inchToM, ratAbs, p9v1, withV, p9cex, mkIterP]),
    show (96 : ℕ) = 95 + 1 from rfl,
    iterLoop_succ_go p9v1 95 ((21420179375625354232152131545754919963 : ℚ) / 243378707212398995503080114458683367630) ((412289854582600438808821314446197350843856755093381357 : ℚ) / 4684541159221468275645882111271147532943342100000000000)
      (by norm_num [xtNext, lamOf, inchToM, ratAbs, p9v1, withV, p9cex, mkIterP]) (by norm_num [xtNext, lamOf, inchToM, ratAbs, p9v1, withV, p9cex, mkIterP]),
    show (95 : ℕ) = 94 + 1 from rfl,
    iterLoop_succ_stop p9v1 94 ((412289854582600438808821314446197350843856755093381357 : ℚ) / 4684541159221468275645882111271147532943342100000000000)
      (by norm_num [xtNext, lamOf, inchToM, ratAbs, p9v1, withV, p9cex, mkIterP]),
    show lamOf p9v1 ((412289854582600438808821314446197350843856755093381357 : ℚ) / 4684541159221468275645882111271147532943342100000000000) = (24361051890615365097359454153731342450307193026289954538000 : ℚ) / 22536760379232263729833637599050072272006049712343392691911 from by norm_num [xtNext, lamOf, inchToM, ratAbs, p9v1, withV, p9cex, mkIterP]]

theorem p9v2_run :
    lambdaXtIter p9v2 = some ((1215019223994984392953821690859140087065547697458409 : ℚ) / 1124032329276009818247072127244790036189310140000000, (114241044625803447181209120194776841001 : ℚ) / 1298019995393439637440611555999462946010) := by
  rw [lambdaXtIter,
    show (100 : ℕ) = 99 + 1 from rfl,
    iterLoop_succ_go p9v2 99 ((1 : ℚ) / 10) ((22587027918712717 : ℚ) / 259915600000000000)
      (by norm_num [xtNext, lamOf, inchToM, ratAbs, p9v2, withV, p9cex, mkIterP]) (by norm_num [xtNext, lamOf, inchToM, ratAbs, p9v2, withV, p9cex, mkIterP]),
    show (99 : ℕ) = 98 + 1 from rfl,
    iterLoop_succ_go p9v2 98 ((22587027918712717 : ℚ) / 259915600000000000) ((3365467159888194833 : ℚ) / 38194047707264992330)
      (by norm_num [xtNext, lamOf, inchToM, ratAbs, p9v2, withV, p9cex, mkIterP]) (by norm_num [xtNext, lamOf, inchToM, ratAbs, p9v2, withV, p9cex, mkIterP]),
    show (98 : ℕ) = 97 + 1 from rfl,
    iterLoop_succ_go p9v2 97 ((3365467159888194833 : ℚ) / 38194047707264992330) ((258807006567791946084463395743538183 : ℚ) / 2940951755766443556952284400000000000)
      (by norm_num [xtNext, lamOf, inchToM, ratAbs, p9v2, withV, p9cex, mkIterP]) (by norm_num [xtNext, lamOf, inchToM, ratAbs, p9v2, withV, p9cex, mkIterP]),
    show (97 : ℕ) = 96 + 1 from rfl,
    iterLoop_succ_go p9v2 96 ((258807006567791946084463395743538183 : ℚ) / 2940951755766443556952284400000000000) ((114241044625803447181209120194776841001 : ℚ) / 1298019995393439637440611555999462946010)
      (by norm_num [xtNext, lamOf, inchToM, ratAbs, p9v2, withV, p9cex, mkIterP]) (by norm_num [xtNext, lamOf, inchToM, ratAbs, p9v2, withV, p9cex, mkIterP]),
    show (96 : ℕ) = 95 + 1 from rfl,
    iterLoop_succ_stop p9v2 95 ((114241044625803447181209120194776841001 : ℚ) / 1298019995393439637440611555999462946010)
      (by norm_num [xtNext, lamOf, inchToM, ratAbs, p9v2, withV, p9cex, mkIterP]),
    show lamOf p9v2 ((114241044625803447181209120194776841001 : ℚ) / 1298019995393439637440611555999462946010) = (1215019223994984392953821690859140087065547697458409 : ℚ) / 1124032329276009818247072127244790036189310140000000 from by norm_num [xtNext, lamOf, inchToM, ratAbs, p9v2, withV, p9cex, mkIterP]]

/-- C9 counterexample: for the fixed inputs `p9cex` the solver converges at
both speeds 3.059502 and 3.059503 m per second, but the lambda returned at
the strictly larger speed is strictly smaller, because the larger speed stops
one iteration earlier on the other side of the true fixed point. -/
theorem c9_counterexample :
    ((1529751 : ℚ) / 500000) < 3059503 / 1000000 ∧
      lambdaXtIter (withV p9cex (1529751 / 500000)) =
        some ((24361051890615365097359454153731342450307193026289954538000 : ℚ) /
            22536760379232263729833637599050072272006049712343392691911,
          (412289854582600438808821314446197350843856755093381357 : ℚ) /
            4684541159221468275645882111271147532943342100000000000) ∧
      lambdaXtIter (withV p9cex (3059503 / 1000000)) =
        some ((1215019223994984392953821690859140087065547697458409 : ℚ) /
            1124032329276009818247072127244790036189310140000000,
          (114241044625803447181209120194776841001 : ℚ) /
            1298019995393439637440611555999462946010) ∧
      ((1215019223994984392953821690859140087065547697458409 : ℚ) /
          1124032329276009818247072127244790036189310140000000) <
        (24361051890615365097359454153731342450307193026289954538000 : ℚ) /
          22536760379232263729833637599050072272006049712343392691911 :=
  ⟨by norm_num, p9v1_run, p9v2_run, by norm_num⟩

/-- The seal lookup of `oleo_pneumatic_sizing` (functions_SA_sizing.py,
lines 117-125): from the bore column of the AS4716 seal table, take the first
row whose bore exceeds the piston diameter already converted to inches.  The
Python source indexes the filtered frame with `.iloc[0]` without any guard,
so an empty selection raises an unguarded IndexError there; the embedding
returns `none` in that case. -/
def sealSelect (table : List ℚ) (d_in : ℚ) : Option ℚ :=
  table.find? (fun c => decide (d_in < c))

/-- The corrected piston diameter (functions_SA_sizing.py, lines 126-128):
the selected bore converted back to meters. -/
def dCorrectedOf (table : List ℚ) (d_in : ℚ) : Option ℚ :=
  (sealSelect table d_in).map inToMSizing

/-- On a sorted table, the first entry exceeding the target is the least
entry exceeding it. -/
theorem sealSelect_is_least (d : ℚ) :
    ∀ (table : List ℚ) (b : ℚ), List.Sorted (· ≤ ·) table →
      sealSelect table d = some b →
      b ∈ table ∧ d < b ∧ ∀ c ∈ table, d < c → b ≤ c := by
  intro table
  induction table with
  | nil => intro b _ h; simp [sealSelect] at h
  | cons a l ih =>
    intro b hsort h
    rw [List.sorted_cons] at hsort
    obtain ⟨ha, hl⟩ := hsort
    by_cases hda : d < a
    · rw [sealSelect, List.find?_cons_of_pos _ (by simpa using hda),
        Option.some.injEq] at h
      subst h
      refine ⟨List.mem_cons_self _ _, hda, ?_⟩
      intro c hc _
      rcases List.mem_cons.mp hc with rfl | hcl
      · exact le_refl c
      · exact ha c hcl
    · rw [sealSelect, List.find?_cons_of_neg _ (by simpa using hda)] at h
      have ihl := ih b hl h
      refine ⟨List.mem_cons_of_mem _ ihl.1, ihl.2.1, ?_⟩
      intro c hc hdc
      rcases List.mem_cons.mp hc with rfl | hcl
      · exact absurd hdc hda
      · exact ihl.2.2 c hcl hdc

/-- C8 (confirmed): seal selection is deterministic — on a table sorted
ascending by bore, the selected bore is the least entry strictly greater
than the computed diameter in inches, and the corrected piston diameter is
that bore converted back to meters. -/
theorem c8_seal_selection_deterministic (table : List ℚ) (d b : ℚ)
    (hsort : List.Sorted (· ≤ ·) table)
    (h : sealSelect table d = some b) :
    b ∈ table ∧ d < b ∧ (∀ c ∈ table, d < c → b ≤ c) ∧
      dCorrectedOf table d = some (inToMSizing b) := by
  have hs := sealSelect_is_least d table b hsort h
  refine ⟨hs.1, hs.2.1, hs.2.2, ?_⟩
  rw [dCorrectedOf, h, Option.map_some']

/-- Witness for C8 on the concrete sorted table [4, 5, 6] with diameter
4.5 inches: the selected bore is 5. -/
theorem c8_witness :
    (5 : ℚ) ∈ [(4 : ℚ), 5, 6] ∧ (9 : ℚ) / 2 < 5 ∧
      (∀ c ∈ [(4 : ℚ), 5, 6], (9 : ℚ) / 2 < c → 5 ≤ c) ∧
      dCorrectedOf [4, 5, 6] (9 / 2) = some (inToMSizing 5) :=
  c8_seal_selection_deterministic [4, 5, 6] (9 / 2) 5
    (by norm_num [List.sorted_cons])
    (by with_unfolding_all decide)

/-- C3, evaluation at the failing input: with seal bores [4, 4.5, 5] inches
and a computed piston diameter of 6 inches no row qualifies, the selection is
empty, and the Python source then evaluates `.iloc[0]` on an empty frame —
an unguarded IndexError, not an explicit checked sizing error. -/
theorem c3_empty_seal_selection_reachable :
    sealSelect [4, 9 / 2, 5] 6 = none := by
  with_unfolding_all decide

/-- C5 counterexample: converting one inch to meters with the 0.0254 factor
of the analysis path and back to inches with the 39.3701 factor of the
sizing path does not return 1 — the factor 39.3701 is not exactly the
reciprocal of 0.0254, so not every conversion path is consistent with the
0.0254 factor. -/
theorem c5_counterexample : mToInSizing (inchToM 1) ≠ 1 := by
  norm_num [mToInSizing, inchToM]

/-- C5 (amended): the analysis path uses exactly 0.0254 m per inch and
4.44822 N per lbf; the sizing path multiplies by 39.3701 and divides by the
same 39.3701, so its own round trip is exact, but 39.3701 differs from the
reciprocal of 0.0254, so the two paths are mutually inconsistent. -/
theorem c5_amended_conversion_factors (d : ℚ) :
    inchToM 1 = 254 / 10000 ∧ lbfToN 1 = 444822 / 100000 ∧
      inToMSizing (mToInSizing d) = d ∧ mToInSizing (inchToM 1) ≠ 1 := by
  refine ⟨by norm_num [inchToM], by norm_num [lbfToN], ?_,
    by norm_num [mToInSizing, inchToM]⟩
  unfold inToMSizing mToInSizing
  rw [mul_div_assoc, div_self (by norm_num), mul_one]

/-- The tyre columns consumed by the stroke computations (functions_SA_sizing.py,
lines 29-32): outer diameter and static radius in inches and the rated load
in pounds, already parsed to a number. -/
structure TyreData where
  do_max_in : ℚ
  static_radius_max_in : ℚ
  rated_load_lbs : ℚ

/-- compute_full_stroke_from_reaction_factor (functions_SA_sizing.py,
lines 25-48): tyre stroke from the reaction factor, shock-absorber stroke
from the energy balance, and their total. -/
def computeFullStroke (mass lam V : ℚ) (tyre : TyreData)
    (n_tyres eta_a eta_t g : ℚ) : ℚ × ℚ × ℚ :=
  let r_max := inchToM (tyre.do_max_in / 2)
  let r_min := inchToM tyre.static_radius_max_in
  let x_t := (9 / 10) * lam * g * mass * (r_max - r_min) /
    (lbfToN tyre.rated_load_lbs * n_tyres)
  let x_a := V ^ 2 / (2 * g * eta_a * lam) - (eta_t / eta_a) * x_t
  (x_t, x_a, x_t + x_a)

/-- C6 (confirmed): substituting the tyre stroke and shock-absorber stroke
computed by compute_full_stroke_from_reaction_factor into the forward energy
equation of the iterative solver reproduces the original lambda exactly. -/
theorem c6_round_trip_reproduces_lambda (mass lam V n_tyres eta_a eta_t g : ℚ)
    (tyre : TyreData)
    (hlam : 0 < lam) (hV : 0 < V) (hm : 0 < mass) (hn : 0 < n_tyres)
    (hr : tyre.static_radius_max_in < tyre.do_max_in / 2)
    (hload : 0 < tyre.rated_load_lbs)
    (hg : 0 < g) (hea : 0 < eta_a) :
    V ^ 2 / (2 * g *
      (eta_a * (computeFullStroke mass lam V tyre n_tyres eta_a eta_t g).2.1 +
        eta_t * (computeFullStroke mass lam V tyre n_tyres eta_a eta_t g).1)) =
      lam := by
  obtain ⟨xt, hxt⟩ : ∃ xt, (9 / 10) * lam * g * mass *
      (inchToM (tyre.do_max_in / 2) - inchToM tyre.static_radius_max_in) /
      (lbfToN tyre.rated_load_lbs * n_tyres) = xt := ⟨_, rfl⟩
  simp only [computeFullStroke, hxt]
  have hg' : g ≠ 0 := hg.ne'
  have hl' : lam ≠ 0 := hlam.ne'
  have hV' : V ≠ 0 := hV.ne'
  have hea' : eta_a ≠ 0 := hea.ne'
  have key : eta_a * (V ^ 2 / (2 * g * eta_a * lam) - eta_t / eta_a * xt) +
      eta_t * xt = V ^ 2 / (2 * g * lam) := by
    field_simp
    ring
  rw [key]
  field_simp
  ring

/-- Witness for C6 at a concrete positive input with the Python default
efficiencies and gravity. -/
theorem c6_witness :
    (1 : ℚ) ^ 2 / (2 * (981 / 100) *
      ((4 / 5) * (computeFullStroke 1 1 1 ⟨2, 1 / 2, 1⟩ 1
          (4 / 5) (47 / 100) (981 / 100)).2.1 +
        (47 / 100) * (computeFullStroke 1 1 1 ⟨2, 1 / 2, 1⟩ 1
          (4 / 5) (47 / 100) (981 / 100)).1)) = 1 :=
  c6_round_trip_reproduces_lambda 1 1 1 1 (4 / 5) (47 / 100) (981 / 100)
    ⟨2, 1 / 2, 1⟩ (by norm_num) (by norm_num) (by norm_num) (by norm_num)
    (by norm_num) (by norm_num) (by norm_num) (by norm_num)

/-- The fully extended gas volume of `oleo_pneumatic_sizing`
(functions_SA_sizing.py, line 144), as a function of the corrected piston
area, the shock-absorber travel and the breakout and maximum pressures:
`V_0 = (A_piston_corrected * shock_absorber_travel_m * P_2) / (P_2 - P_0)`. -/
def V0Of (area travel p0 p2 : ℚ) : ℚ := area * travel * p2 / (p2 - p0)

/-- The fully compressed gas volume (functions_SA_sizing.py, line 145):
`V_2 = V_0 - (A_piston_corrected * shock_absorber_travel_m)`. -/
def V2Of (area travel p0 p2 : ℚ) : ℚ :=
  V0Of area travel p0 p2 - area * travel

/-- C7 (confirmed): whenever the derived pressures satisfy `P2 > P0 > 0` and
the corrected piston area and travel are positive, the derived gas volumes
satisfy `V0 > V2 > 0`. -/
theorem c7_volumes_ordered_positive (area travel p0 p2 : ℚ)
    (h20 : p0 < p2) (h0 : 0 < p0) (ha : 0 < area) (ht : 0 < travel) :
    V2Of area travel p0 p2 < V0Of area travel p0 p2 ∧
      0 < V2Of area travel p0 p2 := by
  constructor
  · exact sub_lt_self _ (mul_pos ha ht)
  · have hv2 : V2Of area travel p0 p2 = area * travel * p0 / (p2 - p0) := by
      unfold V2Of V0Of
      rw [div_sub' _ _ _ (sub_pos.mpr h20).ne']
      ring_nf
    rw [hv2]
    exact div_pos (mul_pos (mul_pos ha ht) h0) (sub_pos.mpr h20)

/-- Witness for C7 at area 1, travel 1, breakout pressure 1 and maximum
pressure 2: the volumes are 2 and 1. -/
theorem c7_witness :
    V2Of 1 1 1 2 < V0Of 1 1 1 2 ∧ 0 < V2Of 1 1 1 2 :=
  c7_volumes_ordered_positive 1 1 1 2 (by norm_num) (by norm_num)
    (by norm_num) (by norm_num)

/-- The aircraft columns consumed by compute_reaction_factors_for_aircraft
(functions_SA_analysis.py, lines 23-29): the two masses and the main-gear
tyre count; the tyre codes are external lookup keys replaced here by the
looked-up `TyreData` records. -/
structure AircraftData where
  mtom : ℚ
  mlm : ℚ
  num_main_tyres : ℚ

/-- One result row of solve_reaction_factor (functions_SA_analysis.py,
lines 82-88). -/
structure RFRow where
  V : ℚ
  mass : ℚ
  lam : ℚ
  x_a : ℚ
  x_t : ℚ

/-- One speed case of solve_reaction_factor (functions_SA_analysis.py,
lines 79-88): the mass is `mtom` for the 1.83 m/s ground-handling case and
`mlm` otherwise; a non-converging case makes the whole call fail. -/
def rfCase (tyre : TyreData) (mtom mlm n_tyres x_a V : ℚ) : Option RFRow :=
  let m := if V = 183 / 100 then mtom else mlm
  (lambdaXtIter (mkIterP V x_a m (tyre.do_max_in / 2) tyre.static_radius_max_in
      (lbfToN tyre.rated_load_lbs) n_tyres)).map
    (fun r => ⟨V, m, r.1, x_a, r.2⟩)

/-- solve_reaction_factor (functions_SA_analysis.py, lines 71-90): the three
standard speed cases in order. -/
def solveReactionFactor (tyre : TyreData) (mtom mlm n_tyres x_a : ℚ) :
    Option (List RFRow) :=
  match rfCase tyre mtom mlm n_tyres x_a (183 / 100),
      rfCase tyre mtom mlm n_tyres x_a (305 / 100),
      rfCase tyre mtom mlm n_tyres x_a (37 / 10) with
  | some a, some b, some c => some [a, b, c]
  | _, _, _ => none

/-- The nose-gear mass reduction of compute_reaction_factors_for_aircraft
(functions_SA_analysis.py, lines 118-119): the nose-gear mass fraction times
the whole-aircraft mass. -/
def noseMassRF (fraction m : ℚ) : ℚ := fraction * m

/-- compute_reaction_factors_for_aircraft (functions_SA_analysis.py,
lines 92-126): the main-gear solve receives the full, unreduced `mtom` and
`mlm`, while the nose-gear solve receives the reduced masses and a fixed
tyre count of 2. -/
def computeReactionFactorsForAircraft (ac : AircraftData)
    (mainTyre noseTyre : TyreData) (x_a_main x_a_nose fraction : ℚ) :
    Option (List RFRow) :=
  match solveReactionFactor mainTyre ac.mtom ac.mlm ac.num_main_tyres x_a_main,
      solveReactionFactor noseTyre (noseMassRF fraction ac.mtom)
        (noseMassRF fraction ac.mlm) 2 x_a_nose with
  | some mr, some nr => some (mr ++ nr)
  | _, _ => none

/-- The main-gear mass share of compute_stroke_breakdown_from_lambdas
(functions_SA_sizing.py, line 60): the total mass times one minus the
nose-gear mass fraction. -/
def mlgMassOf (total fraction : ℚ) : ℚ := total * (1 - fraction)

/-- The nose-gear mass share of compute_stroke_breakdown_from_lambdas
(functions_SA_sizing.py, line 61): the total mass times the fraction. -/
def nlgMassOf (total fraction : ℚ) : ℚ := total * fraction

/-- One result row of compute_stroke_breakdown_from_lambdas
(functions_SA_sizing.py, lines 74-83). -/
structure BDRow where
  V : ℚ
  mass : ℚ
  mlg_x_t : ℚ
  mlg_x_a : ℚ
  mlg_x_total : ℚ
  nlg_x_t : ℚ
  nlg_x_a : ℚ
  nlg_x_total : ℚ

/-- compute_stroke_breakdown_from_lambdas (functions_SA_sizing.py,
lines 50-88): three speed and mass cases, each splitting the total mass into
the main and nose shares and computing both stroke breakdowns with the
Python default efficiencies and gravity. -/
def computeStrokeBreakdown (mtom mlm mlgLam nlgLam fraction : ℚ)
    (mlgTyre nlgTyre : TyreData) (nM nN : ℚ) : List BDRow :=
  [(183 / 100, mtom), (305 / 100, mlm), (37 / 10, mlm)].map (fun c =>
    let ms := computeFullStroke (mlgMassOf c.2 fraction) mlgLam c.1 mlgTyre nM
      (4 / 5) (47 / 100) (981 / 100)
    let ns := computeFullStroke (nlgMassOf c.2 fraction) nlgLam c.1 nlgTyre nN
      (4 / 5) (47 / 100) (981 / 100)
    ⟨c.1, c.2, ms.1, ms.2.1, ms.2.2, ns.1, ns.2.1, ns.2.2⟩)

/-- C10 (confirmed): for a positive aircraft mass and a nose-gear fraction
strictly between 0 and 1, the two routines split mass differently — the
reaction-factor routine leaves the main-gear mass at the full aircraft mass
and adds the nose-gear fraction on top, so its per-gear masses sum to more
than the aircraft mass, while the stroke-breakdown routine splits the total
exactly; hence the two main-gear masses differ. -/
theorem c10_mass_split_mismatch (m fraction : ℚ)
    (hm : 0 < m) (hf0 : 0 < fraction) (hf1 : fraction < 1) :
    m + noseMassRF fraction m > m ∧
      mlgMassOf m fraction + nlgMassOf m fraction = m ∧
      m ≠ mlgMassOf m fraction := by
  unfold noseMassRF mlgMassOf nlgMassOf
  refine ⟨by nlinarith, by ring, ?_⟩
  intro h
  nlinarith [mul_pos hm hf0]

/-- Witness for C10 at the default nose-gear fraction 0.15 and the 76000 kg
aircraft of the sizing script. -/
theorem c10_witness :
    (76000 : ℚ) + noseMassRF (3 / 20) 76000 > 76000 ∧
      mlgMassOf 76000 (3 / 20) + nlgMassOf 76000 (3 / 20) = 76000 ∧
      (76000 : ℚ) ≠ mlgMassOf 76000 (3 / 20) :=
  c10_mass_split_mismatch 76000 (3 / 20) (by norm_num) (by norm_num)
    (by norm_num)

/-- Witness for the amended C5 at the concrete diameter 7 meters. -/
theorem c5_amended_witness :
    inchToM 1 = 254 / 10000 ∧ lbfToN 1 = 444822 / 100000 ∧
      inToMSizing (mToInSizing 7) = 7 ∧ mToInSizing (inchToM 1) ≠ 1 :=
  c5_amended_conversion_factors 7
